import Mathlib

/-
Verification development for the StUtilities repository
(src/Dtat_anal_lib.py and src/Graphics_Lib.py).

Modelling conventions, used throughout:

* Finite floating-point arithmetic is idealised as exact arithmetic in a
  field.  Non-finite floats (NaN and the infinities) are modelled by an
  explicit absorbing element `FV.nan`: the claims under study only ever
  distinguish finite from non-finite values, never NaN from an infinity.
* The filter engine and the expression evaluator are stated over a general
  field so that their theorems can be evaluated decidably over `ℚ`, while
  the cosine-smoothing path, whose kernel is built from `Real.cos`, is
  instantiated at `ℝ`.
* Python exceptions that the source catches are modelled with
  `Except`/`Option`; exceptions that escape every handler are modelled as
  explicit crash outcomes that leave the state unchanged, mirroring the
  fact that the corresponding registration code never runs in the source.
-/

namespace StUtil

/-- A floating-point value: either a finite number of the carrier field or
the absorbing non-finite element (NaN or an infinity; the source programs
only ever test finiteness with `np.isnan`/`np.isinf`/`np.isfinite`, never
the kind of non-finite value). -/
inductive FV (α : Type) where
  | fin (x : α)
  | nan
  deriving DecidableEq

namespace FV

/-- Finiteness test, the model of `np.isfinite` on one element. -/
def isFin {α : Type} : FV α → Bool
  | fin _ => true
  | nan => false

end FV

variable {α : Type} [Field α] [DecidableEq α]

/-- IEEE addition on the model: finite plus finite is exact, any
non-finite operand is absorbing (in IEEE, x + NaN = NaN, and the only
infinite sums the programs can produce are again non-finite). -/
def fvAdd : FV α → FV α → FV α
  | FV.fin a, FV.fin b => FV.fin (a + b)
  | _, _ => FV.nan

/-- IEEE subtraction, same absorbing convention as `fvAdd`. -/
def fvSub : FV α → FV α → FV α
  | FV.fin a, FV.fin b => FV.fin (a - b)
  | _, _ => FV.nan

/-- IEEE multiplication: note that 0 * NaN = NaN in IEEE, so a non-finite
operand absorbs even against zero. -/
def fvMul : FV α → FV α → FV α
  | FV.fin a, FV.fin b => FV.fin (a * b)
  | _, _ => FV.nan

/-- IEEE division.  Division by zero yields the non-finite element: IEEE
gives NaN for 0/0 and an infinity for x/0 with x nonzero, and both are
non-finite; in this development the zero-divisor divisions that actually
occur (normalising a Hann window of length 2) all have a zero dividend,
so the collapsing is exact there. -/
def fvDiv : FV α → FV α → FV α
  | FV.fin a, FV.fin b => if b = 0 then FV.nan else FV.fin (a / b)
  | _, _ => FV.nan

/-- Sum of a list of floating-point values (the reduction performed by
`np.convolve` for each output sample). -/
def fvSum : List (FV α) → FV α :=
  List.foldr fvAdd (FV.fin 0)

/-- Zero-padded lookup: `y` extended with float zeros on both sides, the
implicit extension `np.convolve` applies to the shorter operand. -/
def fvPad (y : List (FV α)) (i : ℤ) : FV α :=
  if 0 ≤ i then y.getD i.toNat (FV.fin 0) else FV.fin 0

/-- Model of `np.convolve(y, v, mode="same")`: the centred slice, of
length `max (len v) (len y)`, of the full convolution against the
zero-padded input.  The slice starts at offset `(min (len v) (len y) - 1) / 2`
into the full convolution, which is numpy's centring policy. -/
def convolveSame (y v : List (FV α)) : List (FV α) :=
  (List.range (max v.length y.length)).map (fun (i : ℕ) =>
    fvSum ((List.range v.length).map (fun (j : ℕ) =>
      fvMul (v.getD j (FV.fin 0))
        (fvPad y ((i : ℤ) + (((min v.length y.length - 1) / 2 : ℕ) : ℤ) - (j : ℤ))))))

/-- Model of `FilterDialog.moving_average` (src/Dtat_anal_lib.py lines
117-122): guard the window, then convolve with the uniform kernel
`np.ones(window)/window`.  Raised `ValueError`s become `Except.error`
with the source's message text. -/
def moving_average (y : List (FV α)) (window : ℤ) : Except String (List (FV α)) :=
  if window ≤ 0 then Except.error "Window must be > 0"
  else if (y.length : ℤ) < window then Except.error "Window larger than dataset"
  else Except.ok (convolveSame y
    (List.replicate window.toNat (fvDiv (FV.fin 1) (FV.fin (window : α)))))

/-- Model of `np.hanning` (boundary dependency): the empty window for
`M = 0`, the singleton `[1]` for `M = 1`, and otherwise the raised-cosine
samples `0.5 - 0.5 * cos (2 * pi * k / (M - 1))` for `k < M`, which is
numpy's documented formula. -/
noncomputable def hanning (M : ℕ) : List (FV ℝ) :=
  if M = 0 then []
  else if M = 1 then [FV.fin 1]
  else (List.range M).map (fun k =>
    FV.fin ((1 : ℝ) / 2 - (1 : ℝ) / 2 * Real.cos (2 * Real.pi * (k : ℝ) / ((M : ℝ) - 1))))

/-- Model of `FilterDialog.cosine_smooth` (src/Dtat_anal_lib.py lines
124-130): the same guards as the moving average, then convolution with
the Hann window normalised to unit sum (`w / w.sum()`; for window 2 that
sum is zero and the normalisation produces non-finite kernel weights). -/
noncomputable def cosine_smooth (y : List (FV ℝ)) (window : ℤ) :
    Except String (List (FV ℝ)) :=
  if window ≤ 0 then Except.error "Window must be > 0"
  else if (y.length : ℤ) < window then Except.error "Window larger than dataset"
  else
    let w := hanning window.toNat
    Except.ok (convolveSame y (w.map (fun v => fvDiv v (fvSum w))))

/-- Boundary model of `scipy.signal.savgol_filter`.  The routine returns
one smoothed value per input sample; no claim in this development
concerns its numeric output, so it is modelled as the length-preserving
identity on the samples. -/
def savgol_filter (y : List (FV α)) (_window _poly : ℤ) : List (FV α) := y

/-- Model of `FilterDialog.sg_filter` (src/Dtat_anal_lib.py lines
132-139): an even window is first incremented to the next odd value,
then the window/polyorder guards run in source order, and on success the
Savitzky-Golay boundary routine is applied. -/
def sg_filter (y : List (FV α)) (window poly : ℤ) : Except String (List (FV α)) :=
  let window := if window % 2 = 0 then window + 1 else window
  if (y.length : ℤ) < window then Except.error "Window larger than dataset"
  else if window ≤ poly then Except.error "Polyorder must be less than window size"
  else Except.ok (savgol_filter y window poly)

/-- Zero-padded lookup on the underlying field, used to phrase the
specification-side neighbourhood of a sample. -/
def qpad (ys : List α) (i : ℤ) : α :=
  if 0 ≤ i then ys.getD i.toNat 0 else 0

/-- Specification-side definition, following the spec's words: the mean
of the `w`-wide zero-padded neighbourhood of `ys` centred at position
`i`.  For even `w` there is no exact centre; the window takes the extra
sample on the left, `[i - w/2, i + (w-1)/2]`, which is the same-length
centred convolution policy the spec names. -/
def specMean (ys : List α) (w : ℕ) (i : ℕ) : α :=
  (((List.range w).map (fun (j : ℕ) => qpad ys ((i : ℤ) + (j : ℤ) - (w / 2 : ℕ)))).sum) / (w : α)

/-- One registered trace as the filter dialog sees it: the label shown in
the table and legend, and the two coordinate arrays. -/
structure Dataset (α : Type) where
  label : String
  x : List (FV α)
  y : List (FV α)
  deriving DecidableEq

/-- The three entries of the filter dialog's combo box. -/
inductive FilterType where
  | movingAverage
  | cosine
  | savitzkyGolay
  deriving DecidableEq

/-- Model of `FilterDialog.apply_filter` (src/Dtat_anal_lib.py lines
83-115).  The selected dataset is fetched (an empty dialog has combo
index -1, and the resulting `IndexError` is caught by the handler and
shown as a warning, modelled by the `none` branch); the chosen filter
runs; any raised `ValueError` is caught and shown (`some msg`); a result
with a non-finite entry is rejected with the source's warning text; only
a fully finite result is registered, appended to the dataset list with
the branch's label. -/
noncomputable def apply_filter (datasets : List (Dataset ℝ)) (idx : ℕ)
    (ftype : FilterType) (win poly : ℤ) : List (Dataset ℝ) × Option String :=
  match datasets[idx]? with
  | none => (datasets, some "list index out of range")
  | some ds =>
    let res : Except String (String × List (FV ℝ)) :=
      match ftype with
      | FilterType.movingAverage =>
        match moving_average ds.y win with
        | Except.error e => Except.error e
        | Except.ok ynew => Except.ok ("T" ++ toString (idx + 1) ++ "_MA", ynew)
      | FilterType.cosine =>
        match cosine_smooth ds.y win with
        | Except.error e => Except.error e
        | Except.ok ynew => Except.ok ("T" ++ toString (idx + 1) ++ "_Cosine", ynew)
      | FilterType.savitzkyGolay =>
        match sg_filter ds.y win poly with
        | Except.error e => Except.error e
        | Except.ok ynew => Except.ok ("T" ++ toString (idx + 1) ++ "_SG", ynew)
    match res with
    | Except.error msg => (datasets, some msg)
    | Except.ok (label, ynew) =>
      if ynew.any (fun v => !v.isFin) then
        (datasets, some "Invalid values in filter result")
      else
        (datasets ++ [{ label := label, x := ds.x, y := ynew }], none)

/-- Floating-point values over the rational idealisation, the carrier of
the expression evaluator. -/
abbrev Qv : Type := FV ℚ

/-- The single-argument functions exposed by `apply_math_expr`'s
evaluation environment (`exp`, `ln`, `log`, `abs`, `np.fft.fft`,
`np.fft.fftfreq`). -/
inductive Fn1 where
  | exp
  | ln
  | log
  | absv
  | fft
  | fftfreq
  deriving DecidableEq

/-- The two-argument functions of the environment (`np.power`). -/
inductive Fn2 where
  | power
  deriving DecidableEq

/-- Abstract syntax of the formula language accepted by the math dialog.
The source evaluates the transliterated formula string with Python
`eval` in a restricted environment; this grammar covers exactly the
names that environment can resolve: numeric literals, the trace tokens
`T<i>` and their `.x`/`.y` components, arithmetic, tuples, and the
allow-listed functions. -/
inductive MExpr where
  | num (q : ℚ)
  | refT (i : ℕ)
  | refX (i : ℕ)
  | refY (i : ℕ)
  | add (a b : MExpr)
  | sub (a b : MExpr)
  | mul (a b : MExpr)
  | div (a b : MExpr)
  | pair (a b : MExpr)
  | call1 (f : Fn1) (a : MExpr)
  | call2 (f : Fn2) (a b : MExpr)
  deriving DecidableEq

/-- Surface name of a one-argument function. -/
def Fn1.fname : Fn1 → String
  | Fn1.exp => "exp"
  | Fn1.ln => "ln"
  | Fn1.log => "log"
  | Fn1.absv => "abs"
  | Fn1.fft => "fft"
  | Fn1.fftfreq => "fftfreq"

/-- Canonical text of a formula; this models the literal formula string
the user typed, which the source passes unchanged as the label of the
registered trace. -/
def mexprRender : MExpr → String
  | MExpr.num q => toString q
  | MExpr.refT i => "T" ++ toString i
  | MExpr.refX i => "T" ++ toString i ++ ".x"
  | MExpr.refY i => "T" ++ toString i ++ ".y"
  | MExpr.add a b => "(" ++ mexprRender a ++ " + " ++ mexprRender b ++ ")"
  | MExpr.sub a b => "(" ++ mexprRender a ++ " - " ++ mexprRender b ++ ")"
  | MExpr.mul a b => "(" ++ mexprRender a ++ " * " ++ mexprRender b ++ ")"
  | MExpr.div a b => "(" ++ mexprRender a ++ " / " ++ mexprRender b ++ ")"
  | MExpr.pair a b => "(" ++ mexprRender a ++ ", " ++ mexprRender b ++ ")"
  | MExpr.call1 f a => f.fname ++ "(" ++ mexprRender a ++ ")"
  | MExpr.call2 Fn2.power a b =>
    "power(" ++ mexprRender a ++ ", " ++ mexprRender b ++ ")"

/-- Whether the substring "fft" occurs in the formula text (the source's
`"fft" in safe_expr` test).  In this grammar the only identifiers are the
`T<i>` tokens, the component suffixes and the seven function names, so
the substring occurs exactly at applications of `fft` or `fftfreq`. -/
def mentionsFft : MExpr → Bool
  | MExpr.num _ => false
  | MExpr.refT _ => false
  | MExpr.refX _ => false
  | MExpr.refY _ => false
  | MExpr.add a b => mentionsFft a || mentionsFft b
  | MExpr.sub a b => mentionsFft a || mentionsFft b
  | MExpr.mul a b => mentionsFft a || mentionsFft b
  | MExpr.div a b => mentionsFft a || mentionsFft b
  | MExpr.pair a b => mentionsFft a || mentionsFft b
  | MExpr.call1 f a =>
    (if f = Fn1.fft ∨ f = Fn1.fftfreq then true else false) || mentionsFft a
  | MExpr.call2 _ a b => mentionsFft a || mentionsFft b

/-- Whether the formula references any trace token `T<i>` (in any of its
three forms: bare, `.x`, or `.y`). -/
def referencesTrace : MExpr → Bool
  | MExpr.num _ => false
  | MExpr.refT _ => true
  | MExpr.refX _ => true
  | MExpr.refY _ => true
  | MExpr.add a b => referencesTrace a || referencesTrace b
  | MExpr.sub a b => referencesTrace a || referencesTrace b
  | MExpr.mul a b => referencesTrace a || referencesTrace b
  | MExpr.div a b => referencesTrace a || referencesTrace b
  | MExpr.pair a b => referencesTrace a || referencesTrace b
  | MExpr.call1 _ a => referencesTrace a
  | MExpr.call2 _ a b => referencesTrace a || referencesTrace b

/-- Run-time values of the restricted Python evaluation: numpy scalars,
one-dimensional arrays, the `{'x': ..., 'y': ...}` trace dictionaries,
and two-element tuples. -/
inductive PyVal where
  | scalar (v : Qv)
  | arr (a : List Qv)
  | dictV (x y : List Qv)
  | tup (a b : PyVal)
  deriving DecidableEq

/-- Boundary model of the exponential on finite rationals: `np.exp` is a
third-party routine whose exact value no claim concerns, so it is
modelled by an unspecified total map (the argument itself). -/
def expBoundary (q : ℚ) : ℚ := q

/-- Boundary model of the natural logarithm on positive rationals, same
convention as `expBoundary`. -/
def lnBoundary (q : ℚ) : ℚ := q

/-- Boundary model of `np.power` on finite rationals, same convention as
`expBoundary`; the non-finite corner cases of `np.power` (for example a
zero base with a negative exponent) are not exercised by any claim. -/
def powBoundary (a _b : ℚ) : ℚ := a

/-- `np.exp` on one element: finite in, finite out; NaN propagates. -/
def fvExp : Qv → Qv
  | FV.fin q => FV.fin (expBoundary q)
  | FV.nan => FV.nan

/-- `np.log` on one element: numpy returns NaN for a negative argument
and -infinity for zero (both non-finite, with a warning rather than an
exception), and propagates NaN. -/
def fvLn : Qv → Qv
  | FV.fin q => if q ≤ 0 then FV.nan else FV.fin (lnBoundary q)
  | FV.nan => FV.nan

/-- `np.abs` on one element (exact on rationals). -/
def fvAbs : Qv → Qv
  | FV.fin q => FV.fin |q|
  | FV.nan => FV.nan

/-- `np.power` on one element pair. -/
def fvPow : Qv → Qv → Qv
  | FV.fin a, FV.fin b => FV.fin (powBoundary a b)
  | _, _ => FV.nan

/-- Boundary model of `np.fft.fft`: the discrete Fourier transform is a
third-party routine returning a complex array of the input's length; no
claim concerns its values, so it is modelled as the length-preserving
identity. -/
def fftBoundary (a : List Qv) : List Qv := a

/-- Model of `np.fft.fftfreq n d`: the frequency-bin array
`[0, 1, ..., (n-1)/2, -(n/2), ..., -1] / (n * d)`. -/
def npFftfreq (n : ℕ) (d : Qv) : List Qv :=
  (List.range n).map (fun (j : ℕ) =>
    fvDiv (FV.fin (if (j : ℤ) ≤ ((n : ℤ) - 1) / 2 then (j : ℚ) else (j : ℚ) - (n : ℚ)))
      (fvMul (FV.fin (n : ℚ)) d))

/-- Element-wise binary operation with numpy's broadcasting over
one-dimensional operands: equal lengths zip, a length-one array
broadcasts against the other operand, any other length pair raises.
Arithmetic on a trace dictionary raises a `TypeError`.  Python's own
tuple semantics for `+` (concatenation) and `*` (repetition) are not
reproduced: no claim evaluates arithmetic on a tuple, and every other
operator raises on tuples exactly as modelled here. -/
def evalBin (op : Qv → Qv → Qv) : PyVal → PyVal → Except String PyVal
  | PyVal.scalar u, PyVal.scalar v => Except.ok (PyVal.scalar (op u v))
  | PyVal.scalar u, PyVal.arr l => Except.ok (PyVal.arr (l.map (fun b => op u b)))
  | PyVal.arr l, PyVal.scalar v => Except.ok (PyVal.arr (l.map (fun a => op a v)))
  | PyVal.arr l, PyVal.arr m =>
    if l.length = m.length then Except.ok (PyVal.arr (List.zipWith op l m))
    else if l.length = 1 then
      Except.ok (PyVal.arr (m.map (fun b => op (l.getD 0 FV.nan) b)))
    else if m.length = 1 then
      Except.ok (PyVal.arr (l.map (fun a => op a (m.getD 0 FV.nan))))
    else Except.error "operands could not be broadcast together"
  | _, _ => Except.error "unsupported operand type"

/-- Application of a one-argument environment function to a value.  The
element-wise ufuncs map over arrays and act on scalars; `fft` needs an
array; `fftfreq` needs a non-negative integer scalar (numpy raises for
anything else).  Applying a ufunc to a trace dictionary raises; numpy's
coercion of tuples to two-dimensional arrays is not reproduced, since no
claim applies a function to a tuple. -/
def evalFn1 : Fn1 → PyVal → Except String PyVal
  | Fn1.exp, PyVal.scalar v => Except.ok (PyVal.scalar (fvExp v))
  | Fn1.exp, PyVal.arr l => Except.ok (PyVal.arr (l.map fvExp))
  | Fn1.ln, PyVal.scalar v => Except.ok (PyVal.scalar (fvLn v))
  | Fn1.ln, PyVal.arr l => Except.ok (PyVal.arr (l.map fvLn))
  | Fn1.log, PyVal.scalar v => Except.ok (PyVal.scalar (fvLn v))
  | Fn1.log, PyVal.arr l => Except.ok (PyVal.arr (l.map fvLn))
  | Fn1.absv, PyVal.scalar v => Except.ok (PyVal.scalar (fvAbs v))
  | Fn1.absv, PyVal.arr l => Except.ok (PyVal.arr (l.map fvAbs))
  | Fn1.fft, PyVal.arr l => Except.ok (PyVal.arr (fftBoundary l))
  | Fn1.fftfreq, PyVal.scalar (FV.fin q) =>
    if q.den = 1 ∧ 0 ≤ q.num then
      Except.ok (PyVal.arr (npFftfreq q.num.toNat (FV.fin 1)))
    else Except.error "n should be an integer"
  | _, _ => Except.error "unsupported argument type"

/-- A placeholder dataset for guarded lookups (never reachable under the
guards that precede every use). -/
def dsZero : Dataset ℚ := { label := "", x := [], y := [] }

/-- Evaluation of a formula against the interpolated environment, the
model of Python `eval(safe_expr, safe_env, {})`.  A `T<i>` token outside
`1..n` is an unresolvable name (`NameError`); every raised exception
surfaces as `Except.error` and is caught at the dialog boundary. -/
def evalE (env : List (Dataset ℚ)) : MExpr → Except String PyVal
  | MExpr.num q => Except.ok (PyVal.scalar (FV.fin q))
  | MExpr.refT i =>
    if 1 ≤ i ∧ i ≤ env.length then
      Except.ok (PyVal.dictV (env.getD (i - 1) dsZero).x (env.getD (i - 1) dsZero).y)
    else Except.error ("name T" ++ toString i ++ " is not defined")
  | MExpr.refX i =>
    if 1 ≤ i ∧ i ≤ env.length then Except.ok (PyVal.arr (env.getD (i - 1) dsZero).x)
    else Except.error ("name T" ++ toString i ++ " is not defined")
  | MExpr.refY i =>
    if 1 ≤ i ∧ i ≤ env.length then Except.ok (PyVal.arr (env.getD (i - 1) dsZero).y)
    else Except.error ("name T" ++ toString i ++ " is not defined")
  | MExpr.add a b => do evalBin fvAdd (← evalE env a) (← evalE env b)
  | MExpr.sub a b => do evalBin fvSub (← evalE env a) (← evalE env b)
  | MExpr.mul a b => do evalBin fvMul (← evalE env a) (← evalE env b)
  | MExpr.div a b => do evalBin fvDiv (← evalE env a) (← evalE env b)
  | MExpr.pair a b => do
    let va ← evalE env a
    let vb ← evalE env b
    Except.ok (PyVal.tup va vb)
  | MExpr.call1 f a => do evalFn1 f (← evalE env a)
  | MExpr.call2 Fn2.power a b => do evalBin fvPow (← evalE env a) (← evalE env b)

/-- Piecewise-linear interpolation on exact rationals with numpy's edge
policy: constant extrapolation with the first/last sample outside the
grid, linear interpolation between bracketing grid points inside (the
grid is assumed increasing, as `np.interp` does). -/
def interpQ : List ℚ → List ℚ → ℚ → ℚ
  | [], _, _ => 0
  | [_], f, _ => f.headD 0
  | x0 :: x1 :: xs, f0 :: f1 :: fs, t =>
    if t ≤ x0 then f0
    else if t ≤ x1 then f0 + (f1 - f0) * (t - x0) / (x1 - x0)
    else interpQ (x1 :: xs) (f1 :: fs) t
  | _ :: _ :: _, _, _ => 0

/-- Extract the finite contents of a list of floating-point values, if
all entries are finite. -/
def seqFin : List (FV α) → Option (List α)
  | [] => some []
  | FV.fin a :: rest => (seqFin rest).map (fun l => a :: l)
  | FV.nan :: _ => none

/-- One interpolated sample, the model of `np.interp` at one target
point: on fully finite inputs the exact piecewise-linear value, and the
non-finite element as soon as any involved value is non-finite (numpy
propagates NaN through the interpolation arithmetic). -/
def interp1 (xp fp : List Qv) (t : Qv) : Qv :=
  match t, seqFin xp, seqFin fp with
  | FV.fin tq, some xs, some fs => FV.fin (interpQ xs fs tq)
  | _, _, _ => FV.nan

/-- Model of `np.interp(xNew, xp, fp)` on one-dimensional arrays. -/
def npInterp (xNew xp fp : List Qv) : List Qv :=
  xNew.map (interp1 xp fp)

/-- The source's test for resampling a trace onto the reference grid:
`len(val["x"]) != len(ref_x) or not np.allclose(val["x"], ref_x)`, with
`np.allclose`'s tolerance idealised to exact equality (every claim that
exercises this branch compares exactly equal grids). -/
def needsInterp (refX : List Qv) (ds : Dataset ℚ) : Bool :=
  if ds.x.length ≠ refX.length ∨ ds.x ≠ refX then true else false

/-- Inputs on which `np.interp` itself raises (an empty sample grid, or
sample and value arrays of different lengths); the interpolation loop
runs outside the source's `try` block, so these raise uncaught. -/
def interpRaises (ds : Dataset ℚ) : Bool :=
  if ds.x = [] ∨ ds.x.length ≠ ds.y.length then true else false

/-- The state the math dialog path can modify: the trace registry and
the chart's line artists (recorded by label), which
`DataPlotWidget.add_dataset` extends together. -/
structure EvalState where
  registry : List (Dataset ℚ)
  chartLines : List String
  deriving DecidableEq

/-- Outcome of one `apply_math_expr` call: a registered trace, an error
reported through the message box, or an exception that escapes every
handler (in each failing case the source reaches no registration code,
so the state is returned unchanged). -/
inductive MathOutcome where
  | success
  | reported (msg : String)
  | crash (msg : String)
  deriving DecidableEq

/-- The tail of `apply_math_expr` from the `isinstance` check onwards: a
non-array result is reported; a non-finite entry in the result is
reported; otherwise `add_dataset(result_x, result_y, label=expr)` runs,
where `ax.plot` raises uncaught (before any registration) if the x data
is not an array of the y data's length. -/
def checkAndAdd (st : EvalState) (label : String) (rx ry : PyVal) :
    EvalState × MathOutcome :=
  match ry with
  | PyVal.arr ys =>
    if ys.any (fun v => !v.isFin) then
      (st, MathOutcome.reported "Result contains NaN/Inf values")
    else
      match rx with
      | PyVal.arr xs =>
        if xs.length = ys.length then
          ({ registry := st.registry ++ [{ label := label, x := xs, y := ys }],
             chartLines := st.chartLines ++ [label] }, MathOutcome.success)
        else (st, MathOutcome.crash "x and y must have same first dimension")
      | _ => (st, MathOutcome.crash "invalid x data for plot")
  | _ => (st, MathOutcome.reported "Expression did not return array")

/-- Model of `DataPlotWidget.apply_math_expr` (src/Dtat_anal_lib.py lines
450-497).  The reference grid is the first trace's x array (an empty
registry raises an uncaught `IndexError` before the `try` block); every
trace whose grid differs from the reference grid is linearly
interpolated onto it; the formula is evaluated in the restricted
environment; a two-element tuple result is split into `(x, y)`, a
formula mentioning `fft` gets frequency bins for its x axis (reading
`ref_x[1]` raises inside the `try` block when the grid has fewer than
two points), any other result keeps the reference grid; then the result
checks and registration of `checkAndAdd` run. -/
def apply_math_expr (e : MExpr) (st : EvalState) : EvalState × MathOutcome :=
  match st.registry with
  | [] => (st, MathOutcome.crash "list index out of range")
  | ds0 :: _ =>
    if st.registry.any (fun ds => needsInterp ds0.x ds && interpRaises ds) then
      (st, MathOutcome.crash "array of sample points is empty")
    else
      match evalE (st.registry.map (fun ds =>
          if needsInterp ds0.x ds then
            { label := ds.label, x := ds0.x, y := npInterp ds0.x ds.x ds.y }
          else ds)) e with
      | Except.error msg => (st, MathOutcome.reported msg)
      | Except.ok (PyVal.tup rx ry) => checkAndAdd st (mexprRender e) rx ry
      | Except.ok v =>
        if mentionsFft e then
          match ds0.x with
          | x0 :: x1 :: _ =>
            checkAndAdd st (mexprRender e)
              (PyVal.arr (npFftfreq ds0.x.length (fvSub x1 x0))) v
          | _ => (st, MathOutcome.reported "index 1 is out of bounds for axis 0")
        else checkAndAdd st (mexprRender e) (PyVal.arr ds0.x) v

/-- One row of the chart's control table together with the trace record
behind it, as `update_plot` reads them.  The chart model uses the plain
rational carrier: every quantity it consumes is finite for registered
traces.  `visibleItem` is the check state of the Visible cell (`none`
models a missing item, which the source treats as visible).  `scaleItem`
is the parsed value of the Y-Scale cell; `none` models both a missing
cell and unparsable text, which the source maps to the scale 1.0 through
its `try`/`except ValueError`.  `rangeMin`/`rangeMax` model the optional
`range_min`/`range_max` dictionary keys read with defaults 0 and
`len(x)`. -/
structure TraceRow where
  x : List ℚ
  y : List ℚ
  visibleItem : Option Bool
  scaleItem : Option ℚ
  rangeMin : Option ℕ
  rangeMax : Option ℕ
  deriving DecidableEq

/-- Effective visibility of a row (`True` when the table item is
missing). -/
def effVisible (r : TraceRow) : Bool := r.visibleItem.getD true

/-- Effective vertical scale of a row (1.0 when missing or
unparsable). -/
def effScale (r : TraceRow) : ℚ := r.scaleItem.getD 1

/-- The coordinates `update_plot` pushes into the row's line artist:
`x[idx_min:idx_max]` and `y[idx_min:idx_max] * scale`, with Python slice
semantics (clamped, empty when the bounds cross). -/
def renderedData (r : TraceRow) : List ℚ × List ℚ :=
  let lo := r.rangeMin.getD 0
  let hi := r.rangeMax.getD r.x.length
  ((r.x.drop lo).take (hi - lo),
   ((r.y.drop lo).take (hi - lo)).map (fun v => v * effScale r))

/-- Minimum of a list as an option (`np.min` of a non-empty array; the
source seeds its running minimum with `float('inf')`, modelled by
`none`). -/
def listMin (l : List ℚ) : Option ℚ :=
  l.foldr (fun q acc => match acc with
    | none => some q
    | some m => some (min q m)) none

/-- Maximum of a list as an option, the mirror of `listMin`. -/
def listMax (l : List ℚ) : Option ℚ :=
  l.foldr (fun q acc => match acc with
    | none => some q
    | some m => some (max q m)) none

/-- Combination of two optional minima, the effect of one `x_min =
min(x_min, np.min(full_x))` step with the infinite sentinel modelled by
`none`. -/
def optMin : Option ℚ → Option ℚ → Option ℚ
  | none, b => b
  | some a, none => some a
  | some a, some b => some (min a b)

/-- Combination of two optional maxima, mirror of `optMin`. -/
def optMax : Option ℚ → Option ℚ → Option ℚ
  | none, b => b
  | some a, none => some a
  | some a, some b => some (max a b)

/-- The horizontal extent accumulated by `update_plot`'s loop: the
running minimum and maximum of `np.min(full_x)`/`np.max(full_x)` over
the visible rows, taken over the full, untrimmed x array.  The source
runs the accumulation forwards seeded with the infinite sentinels; min
and max are order-independent, so a right fold gives the same extent,
and `none` models a sentinel never improved on.  (`np.min` raises on an
empty array; an empty x array is modelled as contributing no extent, and
the theorems about this function assume visible traces are non-empty, the
registered-trace invariant.) -/
def xExtent (rows : List TraceRow) : Option ℚ × Option ℚ :=
  match rows with
  | [] => (none, none)
  | r :: rest =>
    let p := xExtent rest
    if effVisible r then (optMin (listMin r.x) p.1, optMax (listMax r.x) p.2)
    else p

/-- Specification-side quantity for the auto-scale computation: the
concatenation of the full, untrimmed x arrays of the visible rows, whose
global minimum and maximum the spec says the horizontal limits are set
to. -/
def visibleXs (rows : List TraceRow) : List ℚ :=
  rows.foldr (fun r acc => if effVisible r then r.x ++ acc else acc) []

/-- The chart view state the claims reference: the horizontal and
vertical view limits and the per-row line artists (visibility flag plus
rendered coordinates). -/
structure ChartState where
  xlim : ℚ × ℚ
  ylim : ℚ × ℚ
  lines : List (Bool × (List ℚ × List ℚ))
  deriving DecidableEq

/-- Model of `DataPlotWidget.update_plot` (src/Dtat_anal_lib.py lines
341-385).  Every row's artist receives its visibility and its trimmed,
scaled coordinates; the horizontal extent of the visible rows' full x
arrays is accumulated; with auto-scale-x on, `set_xlim` runs only under
the source's guard `x_max > x_min`; the vertical limits are then
recomputed from the rendered data of all lines (hidden ones included,
matplotlib's `relim` default) with the autoscale margin padding
idealised away — no claim references the vertical limits. -/
def update_plot (autoX : Bool) (rows : List TraceRow) (st : ChartState) : ChartState :=
  let lines := rows.map (fun r => (effVisible r, renderedData r))
  let ext := xExtent rows
  let xlim' :=
    if autoX then
      match ext with
      | (some mn, some mx) => if mn < mx then (mn, mx) else st.xlim
      | _ => st.xlim
    else st.xlim
  let allY := lines.foldr (fun l acc => (l.2).2 ++ acc) []
  let ylim' :=
    match listMin allY, listMax allY with
    | some a, some b => (a, b)
    | _, _ => st.ylim
  { xlim := xlim', ylim := ylim', lines := lines }

/-- A scroll event as the zoom handler reads it: whether the cursor lies
inside a plotting axes (`event.inaxes is not None`; when it is `None`
the handler returns at once), the scroll direction (`event.button ==
'up'`), and the cursor's data-space position (defined whenever the
cursor is inside the axes). -/
structure ScrollEvent where
  inAxes : Bool
  up : Bool
  xdata : ℚ
  ydata : ℚ
  deriving DecidableEq

/-- Model of the `zoom` closure installed by
`DataPlotWidget._connect_zoom` (src/Dtat_anal_lib.py lines 540-554):
scale factor 1.2 for an upward scroll and 0.8 otherwise, new full widths
equal to the current full widths times the factor, and new limits
`cursor - new_width/2 .. cursor + new_width/2` on each axis
independently. -/
def zoom (ev : ScrollEvent) (st : ChartState) : ChartState :=
  if ev.inAxes then
    let f : ℚ := if ev.up then 12 / 10 else 8 / 10
    let newW := (st.xlim.2 - st.xlim.1) * f
    let newH := (st.ylim.2 - st.ylim.1) * f
    { st with
      xlim := (ev.xdata - newW / 2, ev.xdata + newW / 2),
      ylim := (ev.ydata - newH / 2, ev.ydata + newH / 2) }
  else st

/-- State of one entry of the `QP` dictionary passed to
`Beam_Graphix.Draw_QP`: the key can be absent (reading it raises
`KeyError`), present but malformed (a non-numeric value that float
arithmetic and `vec` reject, for example a string), or present with a
numeric value. -/
inductive QPVal where
  | absent
  | malformed
  | num (q : ℚ)
  deriving DecidableEq

/-- The quadrupole parameters `Beam_Graphix.Draw_QP` reads from its `QP`
dictionary: `HalfApature`, `Len[m]`, `Zpos`.  Inside the `try` block the
source reads all three keys but validates only the half-aperture (via
the multiplication `1.147 * poleRpos`): an absent key, or a malformed
half-aperture, raises there and is caught, while a present-but-malformed
`Len[m]` or `Zpos` is merely read and survives the `try` block. -/
structure QPparams where
  halfAperture : QPVal
  lenM : QPVal
  zpos : QPVal
  deriving DecidableEq

/-- Outcome of one `Draw_QP` call: the poles were drawn; or the `try`
block raised and the `except` branch printed the source's diagnostic and
returned normally; or an exception was raised outside the `try` block
and propagates to the caller with no diagnostic. -/
inductive DrawOutcome where
  | drawn
  | caught (msg : String)
  | uncaught (msg : String)
  deriving DecidableEq

/-- The rendering properties passed to `Draw_QP` (default colour blue,
default alpha 0.9; the alpha is accepted but never forwarded to the
extrusion call in the source). -/
structure QProps where
  colour : String
  alpha : ℚ
  deriving DecidableEq

/-- One vpython extrusion as `Draw_QP` creates it: a straight path
between two points, a quarter-circle cross-section (arc angles recorded
in units of pi) of the given radius, and a colour.  These are exactly
the arguments the source passes to `extrusion`. -/
structure Extrusion where
  pathStart : ℚ × ℚ × ℚ
  pathEnd : ℚ × ℚ × ℚ
  radius : ℚ
  angle1Pi : ℚ
  angle2Pi : ℚ
  colour : String
  deriving DecidableEq

/-- The body of `Draw_QP`'s pole loop for index `i`.  The angular
position `theta = (i/2)*pi + pi/4` (Python 3 true division) and the
radial placement `PoleR + half_aperture` are computed by the source but
never passed to the rendering call; they are kept here as dead bindings
(the `cos`/`sin` of the dead angle, being functions of it, are elided).
The extrusion itself runs along the beam axis from `(0, 0, Zloc)` to
`(0, 0, Zloc + poleLen)` with a quarter-circle of radius `PoleR`. -/
def mkPole (poleR h zloc plen : ℚ) (colour : String) (i : ℕ) : Extrusion :=
  let _thetaPi : ℚ := (i : ℚ) / 2 + 1 / 4
  let _radial : ℚ := poleR + h
  { pathStart := (0, 0, zloc), pathEnd := (0, 0, zloc + plen),
    radius := poleR, angle1Pi := 0, angle2Pi := 1 / 2, colour := colour }

/-- Model of `Beam_Graphix.Draw_QP` (src/Graphics_Lib.py lines 15-32).
With all three parameters numeric the pole radius `PoleR = 1.147 *
half_aperture` is computed and four poles are appended to the scene.
An absent key, or a malformed half-aperture (whose multiplication by
1.147 raises), raises inside the `try` block: the `except` branch prints
the source's diagnostic and returns without touching the scene.  A
present-but-malformed `Len[m]` or `Zpos` survives the `try` block; the
pole loop then evaluates `vec(0, 0, Zloc)` / `Zloc + poleLen`, which
raises an uncaught `TypeError` before the first extrusion is created:
no diagnostic is printed, the exception propagates to the caller, and
the scene is still unmodified. -/
def Draw_QP (qp : QPparams) (props : QProps) (scene : List Extrusion) :
    List Extrusion × DrawOutcome :=
  match qp.halfAperture, qp.lenM, qp.zpos with
  | QPVal.absent, _, _ =>
    (scene, DrawOutcome.caught "QP paramiters are not set correct....check input")
  | QPVal.malformed, _, _ =>
    (scene, DrawOutcome.caught "QP paramiters are not set correct....check input")
  | QPVal.num _, QPVal.absent, _ =>
    (scene, DrawOutcome.caught "QP paramiters are not set correct....check input")
  | QPVal.num _, _, QPVal.absent =>
    (scene, DrawOutcome.caught "QP paramiters are not set correct....check input")
  | QPVal.num h, QPVal.num plen, QPVal.num z =>
    (scene ++ (List.range 4).map (mkPole ((1147 / 1000) * h) h z plen props.colour),
     DrawOutcome.drawn)
  | QPVal.num _, _, _ =>
    (scene, DrawOutcome.uncaught "unsupported operand type in the pole path")


/-! Shared lemmas about the floating-point model. -/

set_option linter.unusedSectionVars false

attribute [local semireducible] Rat.sub Rat.add Rat.mul Rat.inv

lemma fvSum_cons (x : FV α) (l : List (FV α)) : fvSum (x :: l) = fvAdd x (fvSum l) := rfl

lemma fvSum_map_fin {β : Type} (l : List β) (g : β → α) :
    fvSum (l.map (fun b => FV.fin (g b))) = FV.fin ((l.map g).sum) := by
  induction l with
  | nil => rfl
  | cons a t ih => simp [fvSum_cons, ih, fvAdd]

lemma fvPad_map_fin (ys : List α) (i : ℤ) :
    fvPad (ys.map FV.fin) i = FV.fin (qpad ys i) := by
  by_cases h : 0 ≤ i
  · simp only [fvPad, qpad, if_pos h, List.getD_eq_getElem?_getD, List.getElem?_map]
    cases ys[i.toNat]? <;> rfl
  · simp [fvPad, qpad, if_neg h]

lemma sum_map_range {M : Type} [AddCommMonoid M] (f : ℕ → M) (n : ℕ) :
    ((List.range n).map f).sum = ∑ j in Finset.range n, f j := by
  induction n with
  | zero => simp
  | succ n ih => rw [List.range_succ]; simp [Finset.sum_range_succ, ih]

/-- Claim C1: for `0 < w ≤ N` the moving average returns exactly `N`
samples, the `i`-th being the mean of the `w`-wide zero-padded centred
neighbourhood of the input at position `i` (the model is pure, so the
caller's array is untouched by construction). -/
theorem moving_average_is_neighbourhood_mean (ys : List ℚ) (w : ℤ)
    (hw : 0 < w) (hwn : w ≤ (ys.length : ℤ)) :
    moving_average (ys.map FV.fin) w
      = Except.ok ((List.range ys.length).map (fun i => FV.fin (specMean ys w.toNat i))) := by
  have hW : w.toNat ≤ ys.length := by omega
  have hW1 : 1 ≤ w.toNat := by omega
  have hwq : ((w : ℚ)) ≠ 0 := by
    exact_mod_cast hw.ne'
  have hcast : ((w.toNat : ℕ) : ℚ) = ((w : ℤ) : ℚ) := by
    exact_mod_cast Int.toNat_of_nonneg hw.le
  unfold moving_average
  rw [if_neg (by omega), if_neg (by simp only [List.length_map]; omega)]
  congr 1
  unfold convolveSame
  simp only [List.length_map, List.length_replicate, Nat.max_eq_right hW, Nat.min_eq_left hW]
  apply List.map_congr_left
  intro i hi
  rw [List.mem_range] at hi
  have h1 : ∀ j ∈ List.range w.toNat,
      fvMul ((List.replicate w.toNat (fvDiv (FV.fin 1) (FV.fin (w : ℚ)))).getD j (FV.fin 0))
        (fvPad (ys.map FV.fin) ((i : ℤ) + (((w.toNat - 1) / 2 : ℕ) : ℤ) - (j : ℤ)))
      = FV.fin ((1 / (w : ℚ)) * qpad ys ((i : ℤ) + (((w.toNat - 1) / 2 : ℕ) : ℤ) - (j : ℤ))) := by
    intro j hj
    rw [List.mem_range] at hj
    rw [List.getD_eq_getElem?_getD, List.getElem?_replicate_of_lt hj]
    rw [fvPad_map_fin]
    simp [fvDiv, fvMul, hwq, one_div]
  rw [List.map_congr_left h1, fvSum_map_fin]
  congr 1
  unfold specMean
  rw [sum_map_range, sum_map_range]
  rw [← Finset.sum_range_reflect (fun j => qpad ys ((i : ℤ) + (j : ℤ) - ((w.toNat / 2 : ℕ) : ℤ))) w.toNat]
  rw [← Finset.mul_sum, one_div_mul_eq_div, hcast]
  congr 1
  apply Finset.sum_congr rfl
  intro j hj
  rw [Finset.mem_range] at hj
  congr 1
  omega


/-- Witness for C1 at the concrete input `ys = [1, 2, 3]`, `w = 2`. -/
theorem moving_average_is_neighbourhood_mean_witness :
    (0 : ℤ) < 2 ∧ (2 : ℤ) ≤ (([1, 2, 3] : List ℚ).length : ℤ) ∧
    moving_average (([1, 2, 3] : List ℚ).map FV.fin) 2
      = Except.ok ((List.range ([1, 2, 3] : List ℚ).length).map
          (fun i => FV.fin (specMean [1, 2, 3] (2 : ℤ).toNat i))) :=
  ⟨by norm_num, by norm_num,
    moving_average_is_neighbourhood_mean [1, 2, 3] 2 (by norm_num) (by norm_num)⟩

/-- Claim C2: the moving average and the cosine smoothing fail with the
source's InvalidInput errors exactly when `window ≤ 0` or
`window > len y`, and succeed otherwise; the Savitzky-Golay filter first
replaces an even window by `window + 1` and then fails exactly when the
odd window exceeds `len y` or the polyorder reaches it, succeeding
otherwise (the last group is stated under the dialog's spin-box
invariants `1 ≤ window` and `1 ≤ poly`, within which the boundary
Savitzky-Golay routine itself cannot raise). -/
theorem filter_precondition_errors :
    ∀ (yq : List Qv) (yr : List (FV ℝ)) (w p : ℤ),
      (w ≤ 0 → moving_average yq w = Except.error "Window must be > 0") ∧
      (0 < w → (yq.length : ℤ) < w →
        moving_average yq w = Except.error "Window larger than dataset") ∧
      (0 < w → w ≤ (yq.length : ℤ) → ∃ out, moving_average yq w = Except.ok out) ∧
      (w ≤ 0 → cosine_smooth yr w = Except.error "Window must be > 0") ∧
      (0 < w → (yr.length : ℤ) < w →
        cosine_smooth yr w = Except.error "Window larger than dataset") ∧
      (0 < w → w ≤ (yr.length : ℤ) → ∃ out, cosine_smooth yr w = Except.ok out) ∧
      (1 ≤ w → 1 ≤ p →
        ((yq.length : ℤ) < (if w % 2 = 0 then w + 1 else w) →
          sg_filter yq w p = Except.error "Window larger than dataset") ∧
        ((if w % 2 = 0 then w + 1 else w) ≤ (yq.length : ℤ) →
          (if w % 2 = 0 then w + 1 else w) ≤ p →
          sg_filter yq w p = Except.error "Polyorder must be less than window size") ∧
        ((if w % 2 = 0 then w + 1 else w) ≤ (yq.length : ℤ) →
          p < (if w % 2 = 0 then w + 1 else w) →
          ∃ out, sg_filter yq w p = Except.ok out)) := by
  intro yq yr w p
  refine ⟨?_, ?_, ?_, ?_, ?_, ?_, ?_⟩
  · intro h
    unfold moving_average
    rw [if_pos h]
  · intro h1 h2
    unfold moving_average
    rw [if_neg (by omega), if_pos h2]
  · intro h1 h2
    unfold moving_average
    rw [if_neg (by omega), if_neg (by omega)]
    exact ⟨_, rfl⟩
  · intro h
    unfold cosine_smooth
    rw [if_pos h]
  · intro h1 h2
    unfold cosine_smooth
    rw [if_neg (by omega), if_pos h2]
  · intro h1 h2
    unfold cosine_smooth
    rw [if_neg (by omega), if_neg (by omega)]
    exact ⟨_, rfl⟩
  · intro hw hp
    refine ⟨?_, ?_, ?_⟩
    · intro h
      simp only [sg_filter]
      rw [if_pos h]
    · intro h1 h2
      simp only [sg_filter]
      rw [if_neg (by omega), if_pos h2]
    · intro h1 h2
      simp only [sg_filter]
      rw [if_neg (by omega), if_neg (by omega)]
      exact ⟨_, rfl⟩

/-- Witness for C2 at concrete inputs: a non-positive moving-average
window fails, a valid cosine window succeeds, and a Savitzky-Golay call
whose polyorder reaches the adjusted window fails. -/
theorem filter_precondition_errors_witness :
    moving_average [FV.fin (1 : ℚ)] 0 = Except.error "Window must be > 0" ∧
    (∃ out, cosine_smooth [FV.fin (1 : ℝ)] 1 = Except.ok out) ∧
    sg_filter [FV.fin (1 : ℚ), FV.fin 1, FV.fin 1] 2 3
      = Except.error "Polyorder must be less than window size" :=
  ⟨(filter_precondition_errors [FV.fin 1] [] 0 0).1 (by norm_num),
   ((filter_precondition_errors [] [FV.fin 1] 1 0).2.2.2.2.2.1 (by norm_num) (by norm_num)),
   ((filter_precondition_errors [FV.fin 1, FV.fin 1, FV.fin 1] [] 2 3).2.2.2.2.2.2
      (by norm_num) (by norm_num)).2.1 (by norm_num) (by norm_num)⟩


lemma hanning_two : hanning 2 = [FV.fin 0, FV.fin 0] := by
  unfold hanning
  norm_num [List.range_succ, Real.cos_two_pi]

lemma convolve_nan_kernel (y : List (FV ℝ)) (h2 : 2 ≤ y.length) :
    convolveSame y [FV.nan, FV.nan] = List.replicate y.length FV.nan := by
  calc convolveSame y [FV.nan, FV.nan]
      = (List.range (max 2 y.length)).map (fun _ => (FV.nan : FV ℝ)) := rfl
    _ = List.replicate (max 2 y.length) FV.nan := by
        rw [List.map_const', List.length_range]
    _ = List.replicate y.length FV.nan := by rw [Nat.max_eq_right h2]

/-- Claim C9: with window 2 the Hann window `[0, 0]` sums to zero, the
unit-sum normalisation divides zero by zero, and cosine smoothing of any
trace with at least two samples returns an entirely non-finite array;
the filter dialog's finiteness post-check then rejects the result and no
trace is registered. -/
theorem cosine_smooth_window_two_all_nan (datasets : List (Dataset ℝ)) (idx : ℕ)
    (ds : Dataset ℝ) (poly : ℤ) (hds : datasets[idx]? = some ds)
    (h2 : 2 ≤ ds.y.length) :
    cosine_smooth ds.y 2 = Except.ok (List.replicate ds.y.length FV.nan) ∧
    apply_filter datasets idx FilterType.cosine 2 poly
      = (datasets, some "Invalid values in filter result") := by
  have hcs : cosine_smooth ds.y 2 = Except.ok (List.replicate ds.y.length FV.nan) := by
    unfold cosine_smooth
    rw [if_neg (by omega), if_neg (by omega)]
    rw [show ((2 : ℤ).toNat) = 2 from rfl, hanning_two]
    have hnorm : ([FV.fin 0, FV.fin 0] : List (FV ℝ)).map
        (fun v => fvDiv v (fvSum [FV.fin 0, FV.fin 0])) = [FV.nan, FV.nan] := by
      simp [fvSum, fvAdd, fvDiv]
    simp only [hnorm, convolve_nan_kernel ds.y h2]
  refine ⟨hcs, ?_⟩
  unfold apply_filter
  rw [hds]
  simp only [hcs]
  have hany : (List.replicate ds.y.length (FV.nan : FV ℝ)).any (fun v => !v.isFin) = true := by
    obtain ⟨n, hn⟩ : ∃ n, ds.y.length = n + 2 := ⟨ds.y.length - 2, by omega⟩
    rw [hn]
    rfl
  simp [hany]

/-- Witness for C9 at a concrete two-sample trace. -/
theorem cosine_smooth_window_two_all_nan_witness :
    (([⟨"T1", [FV.fin 0, FV.fin 1], [FV.fin 1, FV.fin 2]⟩] :
        List (Dataset ℝ))[0]? = some ⟨"T1", [FV.fin 0, FV.fin 1], [FV.fin 1, FV.fin 2]⟩) ∧
    2 ≤ ([FV.fin (1 : ℝ), FV.fin 2] : List (FV ℝ)).length ∧
    (cosine_smooth [FV.fin (1 : ℝ), FV.fin 2] 2
        = Except.ok (List.replicate 2 FV.nan) ∧
      apply_filter [⟨"T1", [FV.fin 0, FV.fin 1], [FV.fin 1, FV.fin 2]⟩] 0
          FilterType.cosine 2 2
        = ([⟨"T1", [FV.fin 0, FV.fin 1], [FV.fin 1, FV.fin 2]⟩],
           some "Invalid values in filter result")) :=
  ⟨rfl, by norm_num,
    cosine_smooth_window_two_all_nan
      [⟨"T1", [FV.fin 0, FV.fin 1], [FV.fin 1, FV.fin 2]⟩] 0
      ⟨"T1", [FV.fin 0, FV.fin 1], [FV.fin 1, FV.fin 2]⟩ 2 rfl (by norm_num)⟩


lemma listMin_cons (x : ℚ) (l : List ℚ) :
    listMin (x :: l) = optMin (some x) (listMin l) := by
  have hstep : listMin (x :: l) = (match listMin l with
    | none => some x
    | some m => some (min x m)) := rfl
  rw [hstep]
  cases listMin l <;> rfl

lemma listMax_cons (x : ℚ) (l : List ℚ) :
    listMax (x :: l) = optMax (some x) (listMax l) := by
  have hstep : listMax (x :: l) = (match listMax l with
    | none => some x
    | some m => some (max x m)) := rfl
  rw [hstep]
  cases listMax l <;> rfl

lemma listMin_append (a b : List ℚ) :
    listMin (a ++ b) = optMin (listMin a) (listMin b) := by
  induction a with
  | nil => rfl
  | cons x t ih =>
    rw [List.cons_append, listMin_cons, listMin_cons, ih]
    cases h1 : listMin t <;> cases h2 : listMin b <;> simp [optMin, min_assoc]

lemma listMax_append (a b : List ℚ) :
    listMax (a ++ b) = optMax (listMax a) (listMax b) := by
  induction a with
  | nil => rfl
  | cons x t ih =>
    rw [List.cons_append, listMax_cons, listMax_cons, ih]
    cases h1 : listMax t <;> cases h2 : listMax b <;> simp [optMax, max_assoc]

lemma xExtent_eq (rows : List TraceRow) :
    xExtent rows = (listMin (visibleXs rows), listMax (visibleXs rows)) := by
  induction rows with
  | nil => rfl
  | cons r t ih =>
    have hv : visibleXs (r :: t) = if effVisible r then r.x ++ visibleXs t else visibleXs t := rfl
    by_cases h : effVisible r
    · simp [xExtent, hv, h, ih, listMin_append, listMax_append]
    · simp [xExtent, hv, h, ih]

/-- Claim C6 (amended): with auto-horizontal-scale enabled, the redraw
sets the horizontal limits to the minimum and maximum over the visible
rows' full, untrimmed x arrays, provided that extent is non-degenerate
(`min < max`); with no visible samples, or with a degenerate extent
(all visible x values equal), the limits are left unchanged.  The
non-emptiness hypothesis restricts the statement to states where the
source does not raise inside `np.min`. -/
theorem update_plot_autoscale_x (rows : List TraceRow) (st : ChartState)
    (_hne : ∀ r ∈ rows, effVisible r = true → r.x ≠ []) :
    (visibleXs rows = [] → (update_plot true rows st).xlim = st.xlim) ∧
    (∀ mn mx, listMin (visibleXs rows) = some mn →
      listMax (visibleXs rows) = some mx →
      ((mn < mx → (update_plot true rows st).xlim = (mn, mx)) ∧
       (¬ mn < mx → (update_plot true rows st).xlim = st.xlim))) := by
  have hx := xExtent_eq rows
  constructor
  · intro h0
    simp [update_plot, hx, h0, listMin, listMax]
  · intro mn mx hmn hmx
    constructor
    · intro hlt
      simp [update_plot, hx, hmn, hmx, hlt]
    · intro hnlt
      simp [update_plot, hx, hmn, hmx, hnlt]

/-- Witness for C6 at a concrete visible two-point trace. -/
theorem update_plot_autoscale_x_witness :
    (∀ r ∈ ([⟨[1, 5], [2, 3], some true, some 1, none, none⟩] : List TraceRow),
      effVisible r = true → r.x ≠ []) ∧
    listMin (visibleXs [⟨[1, 5], [2, 3], some true, some 1, none, none⟩]) = some 1 ∧
    listMax (visibleXs [⟨[1, 5], [2, 3], some true, some 1, none, none⟩]) = some 5 ∧
    (update_plot true [⟨[1, 5], [2, 3], some true, some 1, none, none⟩]
        ⟨(0, 1), (0, 1), []⟩).xlim = (1, 5) :=
  ⟨by decide, by decide, by decide,
    ((update_plot_autoscale_x [⟨[1, 5], [2, 3], some true, some 1, none, none⟩]
        ⟨(0, 1), (0, 1), []⟩ (by decide)).2 1 5 (by decide) (by decide)).1 (by decide)⟩

/-- Counterexample to claim C6 as stated: a single visible one-sample
trace (`x = [5]`) under auto-horizontal-scale.  The claim says the
limits are set to the extent `(5, 5)`; the source's guard
`x_max > x_min` fails on the degenerate extent, so the limits remain
`(0, 1)`. -/
theorem update_plot_autoscale_x_counterexample :
    effVisible ⟨[5], [7], some true, some 1, none, none⟩ = true ∧
    visibleXs [⟨[5], [7], some true, some 1, none, none⟩] = [5] ∧
    (update_plot true [⟨[5], [7], some true, some 1, none, none⟩]
        ⟨(0, 1), (0, 1), []⟩).xlim = (0, 1) ∧
    ((0 : ℚ), (1 : ℚ)) ≠ ((5 : ℚ), (5 : ℚ)) := by
  refine ⟨by decide, by decide, by decide, by decide⟩

/-- Counterexample to claim C7 as stated: from limits `(0, 10)` with the
cursor at 5 and an upward scroll, the code sets the new lower limit to
`cursor - half_width_new = -1`, while the claim's formula
`cursor - half_width_new / 2` gives 2. -/
theorem zoom_claimed_offset_counterexample :
    (zoom ⟨true, true, 5, 1⟩ ⟨(0, 10), (0, 2), []⟩).xlim.1 = -1 ∧
    (5 : ℚ) - ((10 - 0) / 2 * (12 / 10)) / 2 = 2 ∧
    ((-1 : ℚ) ≠ 2) := by
  refine ⟨by decide, by decide, by decide⟩

/-- Claim C7 (amended): a scroll inside the axes zooms with factor 1.2
(up) or 0.8 (down); the new half-widths are the current half-widths
times the factor, and the view is `cursor - half_width_new .. cursor +
half_width_new` on each axis independently; a scroll outside every axes
leaves the view unchanged. -/
theorem zoom_centres_cursor (ev : ScrollEvent) (st : ChartState) :
    (ev.inAxes = true →
      zoom ev st =
        { xlim := (ev.xdata - ((st.xlim.2 - st.xlim.1) / 2) * (if ev.up then 12 / 10 else 8 / 10),
                   ev.xdata + ((st.xlim.2 - st.xlim.1) / 2) * (if ev.up then 12 / 10 else 8 / 10)),
          ylim := (ev.ydata - ((st.ylim.2 - st.ylim.1) / 2) * (if ev.up then 12 / 10 else 8 / 10),
                   ev.ydata + ((st.ylim.2 - st.ylim.1) / 2) * (if ev.up then 12 / 10 else 8 / 10)),
          lines := st.lines }) ∧
    (ev.inAxes = false → zoom ev st = st) := by
  constructor
  · intro h
    simp only [zoom, h, if_true]
    simp only [ChartState.mk.injEq, Prod.mk.injEq]
    refine ⟨⟨by ring, by ring⟩, ⟨by ring, by ring⟩, trivial⟩
  · intro h
    simp [zoom, h]

/-- Witness for C7 at a concrete event and view. -/
theorem zoom_centres_cursor_witness :
    zoom ⟨true, true, 5, 1⟩ ⟨(0, 10), (0, 2), []⟩
      = { xlim := (5 - ((10 - 0) / 2) * (12 / 10), 5 + ((10 - 0) / 2) * (12 / 10)),
          ylim := (1 - ((2 - 0) / 2) * (12 / 10), 1 + ((2 - 0) / 2) * (12 / 10)),
          lines := [] } ∧
    zoom ⟨false, true, 5, 1⟩ ⟨(0, 10), (0, 2), []⟩ = ⟨(0, 10), (0, 2), []⟩ :=
  ⟨(zoom_centres_cursor ⟨true, true, 5, 1⟩ ⟨(0, 10), (0, 2), []⟩).1 rfl,
   (zoom_centres_cursor ⟨false, true, 5, 1⟩ ⟨(0, 10), (0, 2), []⟩).2 rfl⟩

/-- Counterexample to claim C8 as stated: with a present-but-malformed
length (half-aperture and z-position numeric), the draw does not abort
with the logged diagnostic.  The `try` block only reads `Len[m]`, so
the malformed value survives it, and the pole loop then raises an
uncaught `TypeError` that propagates to the caller with no diagnostic
(the scene is still unmodified). -/
theorem draw_qp_malformed_length_counterexample :
    Draw_QP ⟨QPVal.num 1, QPVal.malformed, QPVal.num 3⟩ ⟨"blue", 9 / 10⟩ []
      = ([], DrawOutcome.uncaught "unsupported operand type in the pole path") ∧
    DrawOutcome.uncaught "unsupported operand type in the pole path"
      ≠ DrawOutcome.caught "QP paramiters are not set correct....check input" :=
  ⟨rfl, by decide⟩

/-- Claim C8 (amended): with all three parameters numeric the four poles
are drawn with radius exactly `1.147 * half_aperture` and no
diagnostic.  A missing parameter, or a malformed half-aperture (whose
multiplication by 1.147 raises inside the `try` block), aborts with the
source's logged diagnostic and no exception.  A present-but-malformed
length or z-position instead raises an uncaught `TypeError` in the pole
loop, with no diagnostic.  In every aborting case nothing is rendered
and the scene is unmodified. -/
theorem draw_qp_radius_and_param_guard (h L z : ℚ) (props : QProps)
    (scene : List Extrusion) (qp : QPparams) :
    ((Draw_QP ⟨QPVal.num h, QPVal.num L, QPVal.num z⟩ props scene).1
        = scene ++ List.replicate 4
            { pathStart := (0, 0, z), pathEnd := (0, 0, z + L),
              radius := (1147 / 1000) * h, angle1Pi := 0, angle2Pi := 1 / 2,
              colour := props.colour } ∧
      (Draw_QP ⟨QPVal.num h, QPVal.num L, QPVal.num z⟩ props scene).2
        = DrawOutcome.drawn) ∧
    (qp.halfAperture = QPVal.absent ∨ qp.halfAperture = QPVal.malformed ∨
        qp.lenM = QPVal.absent ∨ qp.zpos = QPVal.absent →
      Draw_QP qp props scene
        = (scene, DrawOutcome.caught "QP paramiters are not set correct....check input")) ∧
    ((∃ hq, qp.halfAperture = QPVal.num hq) → qp.lenM ≠ QPVal.absent →
      qp.zpos ≠ QPVal.absent →
      (qp.lenM = QPVal.malformed ∨ qp.zpos = QPVal.malformed) →
      Draw_QP qp props scene
        = (scene, DrawOutcome.uncaught "unsupported operand type in the pole path")) := by
  refine ⟨⟨rfl, rfl⟩, ?_, ?_⟩
  · intro hmiss
    rcases qp with ⟨ha, hb, hc⟩
    rcases hmiss with hm | hm | hm | hm
    · simp only at hm
      subst hm
      rfl
    · simp only at hm
      subst hm
      rfl
    · simp only at hm
      subst hm
      cases ha <;> cases hc <;> rfl
    · simp only at hm
      subst hm
      cases ha <;> cases hb <;> rfl
  · rintro ⟨hq, hha⟩ hlb hlc hmal
    rcases qp with ⟨ha, hb, hc⟩
    simp only at hha hlb hlc hmal
    subst hha
    rcases hmal with hm | hm
    · subst hm
      cases hc
      · exact absurd rfl hlc
      · rfl
      · rfl
    · subst hm
      cases hb
      · exact absurd rfl hlb
      · rfl
      · rfl

/-- Witness for C8 at concrete inputs: an absent half-aperture yields the
caught diagnostic; a malformed z-position yields the uncaught
`TypeError`; the (empty) scene is unmodified in both. -/
theorem draw_qp_radius_and_param_guard_witness :
    Draw_QP ⟨QPVal.absent, QPVal.num 2, QPVal.num 3⟩ ⟨"blue", 9 / 10⟩ []
      = ([], DrawOutcome.caught "QP paramiters are not set correct....check input") ∧
    Draw_QP ⟨QPVal.num 1, QPVal.num 2, QPVal.malformed⟩ ⟨"blue", 9 / 10⟩ []
      = ([], DrawOutcome.uncaught "unsupported operand type in the pole path") :=
  ⟨(draw_qp_radius_and_param_guard 1 2 3 ⟨"blue", 9 / 10⟩ []
      ⟨QPVal.absent, QPVal.num 2, QPVal.num 3⟩).2.1 (Or.inl rfl),
   (draw_qp_radius_and_param_guard 1 2 3 ⟨"blue", 9 / 10⟩ []
      ⟨QPVal.num 1, QPVal.num 2, QPVal.malformed⟩).2.2
     ⟨1, rfl⟩ (by decide) (by decide) (Or.inr rfl)⟩

/-- Claim C10: the four poles are rendered as one and the same extrusion
repeated four times, its path running along the beam axis from
`(0, 0, z)` to `(0, 0, z + length)`; the angular position and radial
placement computed in the loop body never reach the rendering call, so
the geometry is independent of the pole index. -/
theorem draw_qp_poles_identical (h L z : ℚ) (props : QProps) (scene : List Extrusion) :
    ∃ pole : Extrusion,
      (Draw_QP ⟨QPVal.num h, QPVal.num L, QPVal.num z⟩ props scene).1
        = scene ++ List.replicate 4 pole ∧
      pole.pathStart = (0, 0, z) ∧ pole.pathEnd = (0, 0, z + L) :=
  ⟨{ pathStart := (0, 0, z), pathEnd := (0, 0, z + L), radius := (1147 / 1000) * h,
     angle1Pi := 0, angle2Pi := 1 / 2, colour := props.colour }, rfl, rfl, rfl⟩

lemma checkAndAdd_fst (st : EvalState) (label : String) (rx ry : PyVal) :
    (checkAndAdd st label rx ry).2 ≠ MathOutcome.success →
    (checkAndAdd st label rx ry).1 = st := by
  unfold checkAndAdd
  repeat' split
  all_goals intro hcon
  all_goals first
    | rfl
    | exact absurd rfl hcon

/-- Claim C4: whenever a formula's evaluation or validation fails (and
also on the uncaught crash paths), `apply_math_expr` leaves the state --
the trace registry and the chart's line artists -- exactly as it found
it; a trace is registered only on the success outcome. -/
theorem apply_math_expr_failure_leaves_state (e : MExpr) (st : EvalState) :
    (apply_math_expr e st).2 ≠ MathOutcome.success → (apply_math_expr e st).1 = st := by
  unfold apply_math_expr
  repeat' split
  all_goals intro hcon
  all_goals first
    | rfl
    | exact checkAndAdd_fst _ _ _ _ hcon

/-- Witness for C4: a formula referencing the undefined token `T9`
against a one-trace registry fails and leaves the state unchanged. -/
theorem apply_math_expr_failure_leaves_state_witness :
    ((apply_math_expr (MExpr.refY 9) ⟨[⟨"T1", [FV.fin 0], [FV.fin 1]⟩], ["T1"]⟩).2
        ≠ MathOutcome.success) ∧
    (apply_math_expr (MExpr.refY 9) ⟨[⟨"T1", [FV.fin 0], [FV.fin 1]⟩], ["T1"]⟩).1
      = ⟨[⟨"T1", [FV.fin 0], [FV.fin 1]⟩], ["T1"]⟩ :=
  ⟨by decide, apply_math_expr_failure_leaves_state _ _ (by decide)⟩

/-- Counterexample to claim C5 as stated: the reference-free formula
`fftfreq(4)`, evaluated against a registry holding one four-point trace,
succeeds and registers a new trace -- there is no "no dataset
references" check in `apply_math_expr`. -/
theorem no_reference_formula_counterexample :
    referencesTrace (MExpr.call1 Fn1.fftfreq (MExpr.num 4)) = false ∧
    (apply_math_expr (MExpr.call1 Fn1.fftfreq (MExpr.num 4))
        ⟨[⟨"T1", [FV.fin 0, FV.fin (1 / 2), FV.fin 1, FV.fin (3 / 2)],
            [FV.fin 1, FV.fin 1, FV.fin 1, FV.fin 1]⟩], ["T1"]⟩).2
      = MathOutcome.success ∧
    (apply_math_expr (MExpr.call1 Fn1.fftfreq (MExpr.num 4))
        ⟨[⟨"T1", [FV.fin 0, FV.fin (1 / 2), FV.fin 1, FV.fin (3 / 2)],
            [FV.fin 1, FV.fin 1, FV.fin 1, FV.fin 1]⟩], ["T1"]⟩).1.registry.length
      = 2 := by
  refine ⟨rfl, by decide, by decide⟩

/-- Claim C5 (amended): a formula referencing no trace token is not
specially rejected; it is evaluated like any other formula.  A
reference-free formula whose result passes the array and finiteness
checks (here `fftfreq(4)` against a four-point reference grid, which
also triggers the frequency-bin x axis) succeeds and registers one
trace, while a reference-free formula with a scalar result fails with
the source's "Expression did not return array" diagnostic and registers
none. -/
theorem no_reference_check_in_evaluator :
    referencesTrace (MExpr.call1 Fn1.fftfreq (MExpr.num 4)) = false ∧
    referencesTrace (MExpr.num 3) = false ∧
    apply_math_expr (MExpr.call1 Fn1.fftfreq (MExpr.num 4))
        ⟨[⟨"T1", [FV.fin 0, FV.fin (1 / 2), FV.fin 1, FV.fin (3 / 2)],
            [FV.fin 1, FV.fin 1, FV.fin 1, FV.fin 1]⟩], ["T1"]⟩
      = (⟨[⟨"T1", [FV.fin 0, FV.fin (1 / 2), FV.fin 1, FV.fin (3 / 2)],
            [FV.fin 1, FV.fin 1, FV.fin 1, FV.fin 1]⟩,
           ⟨"fftfreq(4)", [FV.fin 0, FV.fin (1 / 2), FV.fin (-1), FV.fin (-(1 / 2))],
            [FV.fin 0, FV.fin (1 / 4), FV.fin (-(1 / 2)), FV.fin (-(1 / 4))]⟩],
          ["T1", "fftfreq(4)"]⟩, MathOutcome.success) ∧
    apply_math_expr (MExpr.num 3)
        ⟨[⟨"T1", [FV.fin 0, FV.fin (1 / 2), FV.fin 1, FV.fin (3 / 2)],
            [FV.fin 1, FV.fin 1, FV.fin 1, FV.fin 1]⟩], ["T1"]⟩
      = (⟨[⟨"T1", [FV.fin 0, FV.fin (1 / 2), FV.fin 1, FV.fin (3 / 2)],
            [FV.fin 1, FV.fin 1, FV.fin 1, FV.fin 1]⟩], ["T1"]⟩,
         MathOutcome.reported "Expression did not return array") := by
  refine ⟨rfl, rfl, by decide, by decide⟩

lemma zipWith_fvSub_map_fin (a b : List ℚ) :
    List.zipWith fvSub (a.map FV.fin) (b.map FV.fin)
      = (List.zipWith (fun x y => x - y) a b).map FV.fin := by
  induction a generalizing b with
  | nil => simp
  | cons x t ih => cases b <;> simp [ih, fvSub]

lemma any_not_isFin_map_fin (l : List ℚ) :
    ((l.map FV.fin).any fun v => !v.isFin) = false := by
  induction l with
  | nil => rfl
  | cons x t ih => simp [FV.isFin, ih]

/-- Claim C3: with the first two registered traces sharing one x grid
(hence equal lengths) and carrying finite samples, and every further
trace well-formed (non-empty x, matching lengths, the registered-trace
invariant), evaluating `T1.y - T2.y` succeeds, registers exactly one new
trace labelled with the formula text, and that trace carries the shared
x grid and the element-wise difference of the two y arrays. -/
theorem formula_difference_registers_trace
    (t1 t2 : Dataset ℚ) (rest : List (Dataset ℚ)) (chart : List String)
    (ys1 ys2 : List ℚ)
    (hx : t2.x = t1.x)
    (hy1 : t1.y = ys1.map FV.fin) (hy2 : t2.y = ys2.map FV.fin)
    (hl1 : t1.y.length = t1.x.length) (hl2 : t2.y.length = t2.x.length)
    (hrest : ∀ ds ∈ rest, ds.x ≠ [] ∧ ds.x.length = ds.y.length) :
    apply_math_expr (MExpr.sub (MExpr.refY 1) (MExpr.refY 2)) ⟨t1 :: t2 :: rest, chart⟩
      = (⟨(t1 :: t2 :: rest) ++
            [⟨mexprRender (MExpr.sub (MExpr.refY 1) (MExpr.refY 2)), t1.x,
              (List.zipWith (fun a b => a - b) ys1 ys2).map FV.fin⟩],
          chart ++ [mexprRender (MExpr.sub (MExpr.refY 1) (MExpr.refY 2))]⟩,
         MathOutcome.success) := by
  have a1 : t1.y.length = ys1.length := by rw [hy1, List.length_map]
  have a2 : t2.y.length = ys2.length := by rw [hy2, List.length_map]
  have a3 : t2.x.length = t1.x.length := by rw [hx]
  have hlen : ys1.length = ys2.length := by omega
  have hni1 : needsInterp t1.x t1 = false := by simp [needsInterp]
  have hni2 : needsInterp t1.x t2 = false := by simp [needsInterp, hx]
  have hguard : ((t1 :: t2 :: rest).any fun ds =>
      needsInterp t1.x ds && interpRaises ds) = false := by
    simp only [List.any_cons, hni1, hni2, Bool.false_and, Bool.false_or]
    rw [List.any_eq_false]
    intro ds hds
    obtain ⟨h1, h2⟩ := hrest ds hds
    simp [interpRaises, h1, h2]
  have hienv : ((t1 :: t2 :: rest).map fun ds =>
      if needsInterp t1.x ds then
        { label := ds.label, x := t1.x, y := npInterp t1.x ds.x ds.y }
      else ds)
      = t1 :: t2 :: (rest.map fun ds =>
        if needsInterp t1.x ds then
          { label := ds.label, x := t1.x, y := npInterp t1.x ds.x ds.y }
        else ds) := by
    simp [hni1, hni2]
  have hev1 : ∀ tl : List (Dataset ℚ), evalE (t1 :: t2 :: tl) (MExpr.refY 1)
      = Except.ok (PyVal.arr t1.y) := by
    intro tl
    simp only [evalE]
    rw [if_pos ⟨le_refl 1, by simp only [List.length_cons]; omega⟩]
    rfl
  have hev2 : ∀ tl : List (Dataset ℚ), evalE (t1 :: t2 :: tl) (MExpr.refY 2)
      = Except.ok (PyVal.arr t2.y) := by
    intro tl
    simp only [evalE]
    rw [if_pos ⟨by omega, by simp only [List.length_cons]; omega⟩]
    rfl
  have hev : ∀ tl : List (Dataset ℚ),
      evalE (t1 :: t2 :: tl) (MExpr.sub (MExpr.refY 1) (MExpr.refY 2))
      = Except.ok (PyVal.arr ((List.zipWith (fun a b => a - b) ys1 ys2).map FV.fin)) := by
    intro tl
    have hstep : evalE (t1 :: t2 :: tl) (MExpr.sub (MExpr.refY 1) (MExpr.refY 2))
        = Bind.bind (evalE (t1 :: t2 :: tl) (MExpr.refY 1)) (fun va =>
            Bind.bind (evalE (t1 :: t2 :: tl) (MExpr.refY 2)) (fun vb =>
              evalBin fvSub va vb)) := rfl
    rw [hstep, hev1, hev2]
    show evalBin fvSub (PyVal.arr t1.y) (PyVal.arr t2.y) = _
    rw [hy1, hy2]
    simp only [evalBin]
    rw [if_pos (by simp only [List.length_map]; omega)]
    rw [zipWith_fvSub_map_fin]
  have hxlen : t1.x.length
      = ((List.zipWith (fun a b => a - b) ys1 ys2).map FV.fin).length := by
    simp only [List.length_map, List.length_zipWith]
    omega
  have hfft : mentionsFft (MExpr.sub (MExpr.refY 1) (MExpr.refY 2)) = false := rfl
  simp only [apply_math_expr, hguard, Bool.false_eq_true, if_false, hienv, hev, hfft,
    checkAndAdd, any_not_isFin_map_fin]
  rw [if_pos hxlen]

/-- Witness for C3 at two concrete two-point traces on the grid
`[0, 1]`. -/
theorem formula_difference_registers_trace_witness :
    apply_math_expr (MExpr.sub (MExpr.refY 1) (MExpr.refY 2))
        ⟨[⟨"T1", [FV.fin 0, FV.fin 1], [FV.fin 3, FV.fin 5]⟩,
          ⟨"T2", [FV.fin 0, FV.fin 1], [FV.fin 1, FV.fin 1]⟩], ["T1", "T2"]⟩
      = (⟨[⟨"T1", [FV.fin 0, FV.fin 1], [FV.fin 3, FV.fin 5]⟩,
           ⟨"T2", [FV.fin 0, FV.fin 1], [FV.fin 1, FV.fin 1]⟩,
           ⟨mexprRender (MExpr.sub (MExpr.refY 1) (MExpr.refY 2)),
            [FV.fin 0, FV.fin 1],
            (List.zipWith (fun a b => a - b) [(3 : ℚ), 5] [(1 : ℚ), 1]).map FV.fin⟩],
          ["T1", "T2", mexprRender (MExpr.sub (MExpr.refY 1) (MExpr.refY 2))]⟩,
         MathOutcome.success) :=
  formula_difference_registers_trace
    ⟨"T1", [FV.fin 0, FV.fin 1], [FV.fin 3, FV.fin 5]⟩
    ⟨"T2", [FV.fin 0, FV.fin 1], [FV.fin 1, FV.fin 1]⟩ [] ["T1", "T2"]
    [3, 5] [1, 1] rfl rfl rfl rfl rfl (by simp)

end StUtil
